import Mathlib

/-!
Shallow embedding of `src/ANIE/create_icon_set.py` (the Icon Renderer pipeline:
the glyph layout engine `create_anie_icon` and the icon set builder
`create_icon_set`), together with proofs of the behavioural properties
claimed for it.

Modelling conventions:
* Python floats are modelled as exact rationals (`ℚ`).  Every float that the
  script computes has the form `c * (S / 1024)` with small naturals `c` and
  `S`; since `S / 1024` only shifts the binary exponent and `c * S` fits a
  double's mantissa for every realistic size, the Python double arithmetic is
  exact and agrees with `ℚ`.
* Python `int()` truncates toward zero; every value it is applied to here is
  nonnegative, so it is modelled by the integer floor.
* A PIL image is modelled as its observable construction data: width, height,
  background colour and the ordered list of draw calls made on it.
* PIL font loading (`ImageFont.truetype`) is an external effect: it is
  modelled by an environment `FontEnv` that says, for each font path, whether
  loading succeeds and with which metrics; the `textbbox` measurements of a
  loaded font are likewise part of the environment.
* Filesystem effects (`os.makedirs`, `img.save`, `open(...).write`) are
  modelled by explicit state passing over an `FS` value; fallible calls
  return `Except`.  In-memory drawing emits no filesystem effect but the
  glyph layout engine also carries an explicit effect trace (font-path reads),
  so that its absence of disk writes is a statement, not a typing artifact.
-/

/-- Python `int()` on the nonnegative rationals appearing in the script:
truncation toward zero, i.e. the floor. -/
def pyInt (q : ℚ) : Int := ⌊q⌋

/-- An RGBA colour; the script builds colours from 3- or 4-tuples of ints,
with alpha defaulting to 255 for the 3-tuples. -/
structure Color where
  r : Nat
  g : Nat
  b : Nat
  a : Nat := 255
deriving DecidableEq, Repr

/-- `(0, 0, 0, 0)` — the transparent background of `Image.new`. -/
def color_transparent : Color := ⟨0, 0, 0, 0⟩

/-- `(0, 0, 0)` — the rounded-rectangle fill. -/
def color_black : Color := ⟨0, 0, 0, 255⟩

/-- The static `colors` table of `create_anie_icon`. -/
def colors (letter : Char) : Color :=
  if letter = 'A' then ⟨255, 255, 255, 255⟩
  else if letter = 'N' then ⟨0, 144, 255, 255⟩
  else if letter = 'I' then ⟨255, 255, 255, 255⟩
  else ⟨0, 144, 255, 255⟩

/-- A draw call recorded on an image: `draw.rounded_rectangle` or
`draw.text`. -/
inductive DrawOp where
  | roundedRect (coords : List Int) (fill : Color) (radius : Int)
  | text (pos : Int × Int) (s : String) (fill : Color)
deriving DecidableEq, Repr

/-- A PIL image, observed as its construction data. -/
structure Image where
  width : Nat
  height : Nat
  background : Color
  ops : List DrawOp
deriving DecidableEq, Repr

/-- A text bounding box as returned by `draw.textbbox((0, 0), text, font)`:
the four components `bbox[0] .. bbox[3]`. -/
structure BBox where
  left : Int
  top : Int
  right : Int
  bottom : Int
deriving DecidableEq, Repr

/-- A loaded font, observed through the `textbbox` measurements it induces
(the script only ever measures at origin `(0, 0)`). -/
structure FontData where
  textbbox : String → BBox

/-- The external font environment: what `ImageFont.truetype` returns for a
given path and size (`none` models the call raising), and the
`ImageFont.load_default()` font. -/
structure FontEnv where
  truetype : String → Int → Option FontData
  defaultFont : FontData

/-- The primary font path tried by `create_anie_icon`. -/
def primary_font_path : String := "/System/Library/Fonts/Supplemental/Arial Bold.ttf"

/-- The secondary font path tried by `create_anie_icon`. -/
def secondary_font_path : String := "/Library/Fonts/Arial Bold.ttf"

/-- An external effect performed by the scripts, for effect-trace
statements. -/
inductive Effect where
  | readPath (path : String)
  | writePath (path : String)
deriving DecidableEq, Repr

/-- Whether an effect is a disk write. -/
def Effect.isWrite : Effect → Bool
  | .writePath _ => true
  | .readPath _ => false

/-- Lines 20–27 of `create_icon_set.py`: the nested `try`/`except` chain
around `ImageFont.truetype`.  Returns the paths attempted (in order, each a
disk read) and the font obtained. -/
def load_font_run (env : FontEnv) (font_size : Int) : List String × FontData :=
  match env.truetype primary_font_path font_size with
  | some font => ([primary_font_path], font)
  | none =>
    match env.truetype secondary_font_path font_size with
    | some font => ([primary_font_path, secondary_font_path], font)
    | none => ([primary_font_path, secondary_font_path], env.defaultFont)

/-- `scale_factor = size / 1024` (line 11). -/
def scale_factor (size : Nat) : ℚ := (size : ℚ) / 1024

/-- `inset = int(60 * scale_factor)` (line 12). -/
def inset (size : Nat) : Int := pyInt (60 * scale_factor size)

/-- `corner_radius = int(100 * scale_factor)` (line 13). -/
def corner_radius (size : Nat) : Int := pyInt (100 * scale_factor size)

/-- `font_size = int(400 * scale_factor)` (line 21). -/
def font_size (size : Nat) : Int := pyInt (400 * scale_factor size)

/-- `spacing = int(10 * scale_factor)` (line 37). -/
def spacing (size : Nat) : Int := pyInt (10 * scale_factor size)

/-- `create_anie_icon(size)` (lines 5–78), with the external font
environment made explicit.  Returns the effect trace (the font paths read
while resolving the font) and the composited in-memory image. -/
def create_anie_icon_run (env : FontEnv) (size : Nat) : List Effect × Image :=
  -- img = Image.new('RGBA', (size, size), (0, 0, 0, 0))
  let rect_coords : List Int :=
    [inset size, inset size, (size : Int) - inset size, (size : Int) - inset size]
  let font_run := load_font_run env (font_size size)
  let attempts := font_run.1
  let font := font_run.2
  let sp := spacing size
  -- first row "AN", second row "IE"
  let bbox_top := font.textbbox "AN"
  let width_top := bbox_top.right - bbox_top.left
  let height_top := bbox_top.bottom - bbox_top.top
  let bbox_bottom := font.textbbox "IE"
  let width_bottom := bbox_bottom.right - bbox_bottom.left
  -- total_height = height_top * 2 + spacing
  let total_height := height_top * 2 + sp
  -- start_y = (size - total_height) // 2 - int(80 * scale_factor)
  let start_y := Int.fdiv ((size : Int) - total_height) 2 - pyInt (80 * scale_factor size)
  -- top row: x = (size - width_top) // 2, advancing by letter width + spacing
  let xA := Int.fdiv ((size : Int) - width_top) 2
  let bboxA := font.textbbox "A"
  let widthA := bboxA.right - bboxA.left
  let xN := xA + widthA + sp
  -- bottom row: base_x = (size - width_bottom) // 2, y = start_y + height_top + spacing
  let base_x := Int.fdiv ((size : Int) - width_bottom) 2
  let y_bottom := start_y + height_top + sp
  let bboxI := font.textbbox "I"
  let widthI := bboxI.right - bboxI.left
  (attempts.map Effect.readPath,
   { width := size
     height := size
     background := color_transparent
     ops :=
       [DrawOp.roundedRect rect_coords color_black (corner_radius size),
        DrawOp.text (xA, start_y) "A" (colors 'A'),
        DrawOp.text (xN, start_y) "N" (colors 'N'),
        DrawOp.text (base_x - pyInt (15 * scale_factor size), y_bottom) "I" (colors 'I'),
        DrawOp.text (base_x + widthI + sp - pyInt (68 * scale_factor size), y_bottom)
          "E" (colors 'E')] })

/-- The image returned by `create_anie_icon(size)`. -/
def create_anie_icon (env : FontEnv) (size : Nat) : Image :=
  (create_anie_icon_run env size).2

/-! ## The icon set builder (`create_icon_set`, lines 80–123) -/

/-- A record appended to `contents["images"]`. -/
structure ManifestRecord where
  size : String
  idiom : String
  filename : String
  scale : String
deriving DecidableEq, Repr

/-- The `Contents.json` data: the image records plus the fixed
`info` block (`author`, `version`). -/
structure Manifest where
  images : List ManifestRecord
  author : String
  version : Nat
deriving DecidableEq, Repr

/-- The content of a file the builder writes: a saved PNG or the serialized
manifest. -/
inductive FileContent where
  | png (img : Image)
  | manifest (m : Manifest)
deriving DecidableEq, Repr

/-- Whether a file content is an image (PNG) file. -/
def FileContent.isPng : FileContent → Bool
  | .png _ => true
  | .manifest _ => false

/-- The filesystem state the builder acts on: the set of existing
directories and the files by path. -/
structure FS where
  dirs : List String
  files : List (String × FileContent)
deriving DecidableEq, Repr

/-- An empty filesystem. -/
def FS.empty : FS := ⟨[], []⟩

/-- First-match lookup in a path-to-content association list. -/
def lookupF : List (String × FileContent) → String → Option FileContent
  | [], _ => none
  | p :: rest, n => if p.1 = n then some p.2 else lookupF rest n

/-- Look a file up by path. -/
def FS.getFile (fs : FS) (n : String) : Option FileContent := lookupF fs.files n

/-- Whether a directory exists. -/
def FS.hasDir (fs : FS) (d : String) : Prop := d ∈ fs.dirs

instance (fs : FS) (d : String) : Decidable (fs.hasDir d) := by
  unfold FS.hasDir; infer_instance

/-- Overwrite every entry for path `n` in place. -/
def replaceF : List (String × FileContent) → String → FileContent →
    List (String × FileContent)
  | [], _, _ => []
  | p :: rest, n, c => (if p.1 = n then (n, c) else p) :: replaceF rest n c

/-- Write a file: overwrite in place when the path exists, append
otherwise (the semantics of `img.save` / `open(..., "w")`). -/
def FS.setFile (fs : FS) (n : String) (c : FileContent) : FS :=
  if fs.files.any (fun p => p.1 = n) then
    { fs with files := replaceF fs.files n c }
  else
    { fs with files := fs.files ++ [(n, c)] }

/-- `os.makedirs(d, exist_ok=...)`: create the directory; when it already
exists, succeed exactly when `exist_ok` is set. -/
def makedirs (fs : FS) (d : String) (exist_ok : Bool) : Except String FS :=
  if d ∈ fs.dirs then
    if exist_ok then .ok fs else .error "FileExistsError"
  else .ok { fs with dirs := d :: fs.dirs }

/-- `icon_dir = "Assets.xcassets/AppIcon.appiconset"` (line 82). -/
def icon_dir : String := "Assets.xcassets/AppIcon.appiconset"

/-- `os.path.join` as used here (POSIX, relative second component). -/
def path_join (a b : String) : String := a ++ "/" ++ b

/-- The fixed `icon_sizes` table (lines 86–92), in source order; Python
dicts iterate in insertion order. -/
def icon_sizes : List (String × List Nat) :=
  [("16x16", [16, 32]),
   ("32x32", [32, 64]),
   ("128x128", [128, 256]),
   ("256x256", [256, 512]),
   ("512x512", [512, 1024])]

/-- Digits-prefix parse: `int(base_size.split("x")[0])` on the well-formed
keys of `icon_sizes` reads the decimal digits before the first `x`. -/
def base_width (s : String) : Nat :=
  (s.toList.takeWhile (fun c => c ≠ 'x')).foldl (fun n c => n * 10 + (c.toNat - 48)) 0

/-- `filename = f"icon_{size}x{size}.png"` (line 106). -/
def icon_filename (size : Nat) : String := s!"icon_{size}x{size}.png"

/-- The manifest record appended for one variant (lines 111–116):
`scale` is `f"{size//width}x"` with `//` Python floor division. -/
def variant_record (base_size : String) (size : Nat) : ManifestRecord :=
  { size := base_size
    idiom := "mac"
    filename := icon_filename size
    scale := s!"{size / base_width base_size}x" }

/-- The body of the inner loop for one variant: save the rendered icon and
append its manifest record. -/
def process_variant (env : FontEnv) (base_size : String)
    (st : FS × List ManifestRecord) (size : Nat) : FS × List ManifestRecord :=
  (st.1.setFile (path_join icon_dir (icon_filename size)) (.png (create_anie_icon env size)),
   st.2 ++ [variant_record base_size size])

/-- One iteration of the outer loop (a size class and its two densities). -/
def process_entry (env : FontEnv) (st : FS × List ManifestRecord)
    (entry : String × List Nat) : FS × List ManifestRecord :=
  entry.2.foldl (process_variant env entry.1) st

/-- `create_icon_set()` (lines 80–123): make the output directory, render
and save every variant while accumulating the manifest records, then write
`Contents.json`. -/
def create_icon_set (env : FontEnv) (fs : FS) : Except String FS := do
  let fs ← makedirs fs icon_dir true
  let (fs, images) := icon_sizes.foldl (process_entry env) (fs, [])
  pure (fs.setFile (path_join icon_dir "Contents.json")
    (.manifest { images := images, author := "xcode", version := 1 }))

/-! ## Reference definitions and helper infrastructure for the proofs -/

/-- Modelled from the spec: the font-fallback chain as "an ordered list of
candidate loaders evaluated until first success" (spec §4.1 / §9), used only
as the reference side of the refinement statement for the source's nested
`try`/`except` chain.  Returns the loaders attempted (in order, stopping at
the first success) and the font obtained, with the library default as the
final fallback. -/
def first_success : List (String × Option FontData) → FontData → List String × FontData
  | [], d => ([], d)
  | (p, some f) :: _, _ => ([p], f)
  | (p, none) :: rest, d =>
    (p :: (first_success rest d).1, (first_success rest d).2)

/-- The pure effect of `os.makedirs(d, exist_ok=True)`. -/
def mkdirP (fs : FS) (d : String) : FS :=
  if d ∈ fs.dirs then fs else { fs with dirs := d :: fs.dirs }

/-- Apply a sequence of file writes in order. -/
def writeSeq (fs : FS) (L : List (String × FileContent)) : FS :=
  L.foldl (fun a p => a.setFile p.1 p.2) fs

/-- The last write to path `m` in a write sequence, if any. -/
def lastVal : List (String × FileContent) → String → Option FileContent
  | [], _ => none
  | p :: L, m =>
    match lastVal L m with
    | some c => some c
    | none => if p.1 = m then some p.2 else none

/-- The ten manifest records one run produces, in table order. -/
def manifest_images_list : List ManifestRecord :=
  [variant_record "16x16" 16, variant_record "16x16" 32,
   variant_record "32x32" 32, variant_record "32x32" 64,
   variant_record "128x128" 128, variant_record "128x128" 256,
   variant_record "256x256" 256, variant_record "256x256" 512,
   variant_record "512x512" 512, variant_record "512x512" 1024]

/-- The ten icon-save writes one run performs, in order. -/
def icon_writes (env : FontEnv) : List (String × FileContent) :=
  [(path_join icon_dir (icon_filename 16), .png (create_anie_icon env 16)),
   (path_join icon_dir (icon_filename 32), .png (create_anie_icon env 32)),
   (path_join icon_dir (icon_filename 32), .png (create_anie_icon env 32)),
   (path_join icon_dir (icon_filename 64), .png (create_anie_icon env 64)),
   (path_join icon_dir (icon_filename 128), .png (create_anie_icon env 128)),
   (path_join icon_dir (icon_filename 256), .png (create_anie_icon env 256)),
   (path_join icon_dir (icon_filename 256), .png (create_anie_icon env 256)),
   (path_join icon_dir (icon_filename 512), .png (create_anie_icon env 512)),
   (path_join icon_dir (icon_filename 512), .png (create_anie_icon env 512)),
   (path_join icon_dir (icon_filename 1024), .png (create_anie_icon env 1024))]

/-- The full list of file writes one run of `create_icon_set` performs, in
order: the ten icon saves followed by the manifest write. -/
def all_writes (env : FontEnv) : List (String × FileContent) :=
  icon_writes env ++
    [(path_join icon_dir "Contents.json",
      .manifest { images := manifest_images_list, author := "xcode", version := 1 })]

/-- A concrete environment on which neither truetype path loads, used to
instantiate hypotheses at concrete inputs. -/
def env0 : FontEnv := ⟨fun _ _ => none, ⟨fun _ => ⟨0, 0, 0, 0⟩⟩⟩

/-- The loop of `create_icon_set` produces exactly the ten icon writes and
the ten manifest records, in table order. -/
theorem fold_normal_form (env : FontEnv) (fs0 : FS) :
    icon_sizes.foldl (process_entry env) (fs0, [])
      = (writeSeq fs0 (icon_writes env), manifest_images_list) := by
  simp only [icon_sizes, icon_writes, manifest_images_list, writeSeq, List.foldl_cons,
    List.foldl_nil, process_entry, process_variant, List.nil_append, List.cons_append,
    List.singleton_append]

/-- `create_icon_set` always succeeds and equals the mkdir followed by the
write sequence. -/
theorem create_icon_set_normal_form (env : FontEnv) (fs : FS) :
    create_icon_set env fs = .ok (writeSeq (mkdirP fs icon_dir) (all_writes env)) := by
  unfold create_icon_set makedirs mkdirP
  by_cases h : icon_dir ∈ fs.dirs <;>
    simp only [h, if_true, if_false, ite_true, ite_false, Except.bind, bind, pure,
      Except.pure, fold_normal_form, all_writes, writeSeq, List.foldl_append,
      List.foldl_cons, List.foldl_nil]

/-- `pyInt` of a scaled constant is natural floor division by 1024. -/
theorem pyInt_scale (c S : Nat) :
    pyInt ((c : ℚ) * scale_factor S) = ((c * S / 1024 : Nat) : Int) := by
  unfold pyInt scale_factor
  have h : (c : ℚ) * ((S : ℚ) / 1024) = ((c * S : ℕ) : ℚ) / ((1024 : ℕ) : ℚ) := by
    push_cast; ring
  rw [h, Rat.floor_natCast_div_natCast]
  exact_mod_cast rfl

/-- Overwriting path `n` leaves lookups of other paths unchanged. -/
theorem lookupF_replaceF_ne (l : List (String × FileContent)) (n c m)
    (hm : n ≠ m) : lookupF (replaceF l n c) m = lookupF l m := by
  induction l with
  | nil => rfl
  | cons p rest ih =>
    simp only [replaceF, lookupF]
    by_cases hp : p.1 = n
    · have hpm : ¬ p.1 = m := fun h => hm (hp ▸ h)
      simp [if_pos hp, if_neg hm, if_neg hpm, ih]
    · simp only [if_neg hp, ih]

/-- Overwriting a present path `n` makes its lookup read the new content. -/
theorem lookupF_replaceF_self (l : List (String × FileContent)) (n c)
    (h : (l.any fun p => p.1 = n) = true) :
    lookupF (replaceF l n c) n = some c := by
  induction l with
  | nil => simp at h
  | cons p rest ih =>
    by_cases hp : p.1 = n
    · simp [replaceF, lookupF, hp]
    · simp only [List.any_cons, Bool.or_eq_true, decide_eq_true_eq, hp, false_or] at h
      simp [replaceF, lookupF, hp, ih h]

/-- A path no entry carries looks up to `none`. -/
theorem lookupF_eq_none (l : List (String × FileContent)) (n)
    (h : ¬ (l.any fun p => p.1 = n) = true) : lookupF l n = none := by
  induction l with
  | nil => rfl
  | cons p rest ih =>
    simp only [List.any_cons, Bool.or_eq_true, decide_eq_true_eq] at h
    push_neg at h
    simp [lookupF, h.1, ih (by simpa using h.2)]

/-- Lookup distributes over list append. -/
theorem lookupF_append (l l2 : List (String × FileContent)) (m) :
    lookupF (l ++ l2) m
      = match lookupF l m with
        | some c => some c
        | none => lookupF l2 m := by
  induction l with
  | nil => rfl
  | cons p rest ih =>
    by_cases hp : p.1 = m <;> simp [lookupF, hp, ih]

/-- `setFile` then lookup: the written path reads back the new content, all
other paths are unchanged. -/
theorem getFile_setFile (fs : FS) (n : String) (c : FileContent) (m : String) :
    (fs.setFile n c).getFile m = if n = m then some c else fs.getFile m := by
  unfold FS.setFile FS.getFile
  by_cases hn : (fs.files.any fun p => p.1 = n) = true
  · rw [if_pos hn]
    by_cases hm : n = m
    · subst hm
      simp [lookupF_replaceF_self fs.files n c hn]
    · simp [lookupF_replaceF_ne fs.files n c m hm, hm]
  · rw [if_neg hn]
    show lookupF (fs.files ++ [(n, c)]) m = _
    rw [lookupF_append]
    by_cases hm : n = m
    · subst hm
      rw [lookupF_eq_none fs.files n hn]
      simp [lookupF]
    · cases hl : lookupF fs.files m with
      | some d => simp [hm]
      | none => simp [lookupF, hm]

/-- Lookup through a write sequence: the last write to the path wins, and a
path never written keeps its prior content. -/
theorem getFile_writeSeq (L : List (String × FileContent)) (fs : FS) (m : String) :
    (writeSeq fs L).getFile m
      = match lastVal L m with
        | some c => some c
        | none => fs.getFile m := by
  induction L generalizing fs with
  | nil => rfl
  | cons p L ih =>
    simp only [writeSeq, List.foldl_cons] at *
    rw [ih]
    cases hL : lastVal L m with
    | some c => simp [lastVal, hL]
    | none =>
      simp only [lastVal, hL, getFile_setFile]
      by_cases hp : p.1 = m <;> simp [hp]

/-- `setFile` never touches the directory set. -/
theorem dirs_setFile (fs : FS) (n : String) (c : FileContent) :
    (fs.setFile n c).dirs = fs.dirs := by
  unfold FS.setFile
  by_cases h : fs.files.any (fun p => p.1 = n) <;> simp [h]

/-- Write sequences never touch the directory set. -/
theorem dirs_writeSeq (L : List (String × FileContent)) (fs : FS) :
    (writeSeq fs L).dirs = fs.dirs := by
  induction L generalizing fs with
  | nil => rfl
  | cons p L ih =>
    simp only [writeSeq, List.foldl_cons] at *
    rw [ih, dirs_setFile]

/-- Re-applying the same write sequence changes no file. -/
theorem getFile_writeSeq_idem (L : List (String × FileContent)) (fs : FS) (m : String) :
    (writeSeq (writeSeq fs L) L).getFile m = (writeSeq fs L).getFile m := by
  rw [getFile_writeSeq L (writeSeq fs L) m]
  cases hL : lastVal L m with
  | some c => rw [getFile_writeSeq L fs m, hL]
  | none => rfl

/-- Truncated scaling sits within one unit (of the 1024 denominator) below
the exact proportional value. -/
theorem pyInt_scale_bounds (c S : Nat) :
    pyInt ((c : ℚ) * scale_factor S) * 1024 ≤ (c * S : Int)
    ∧ ((c * S : Int) - 1024 < pyInt ((c : ℚ) * scale_factor S) * 1024) := by
  rw [pyInt_scale]
  have hdm := Nat.div_add_mod (c * S) 1024
  have hlt := Nat.mod_lt (c * S) (show 0 < 1024 by norm_num)
  constructor <;> push_cast <;> omega

/-- A trace made of path reads contains no write. -/
theorem filter_isWrite_map_read (l : List String) :
    ((l.map Effect.readPath).filter Effect.isWrite) = [] := by
  induction l with
  | nil => rfl
  | cons p rest ih => simp [Effect.isWrite, ih]

/-- The distinct paths present after a sequence of writes: the prior paths,
then each newly written path at its first occurrence. -/
def keysAfter : List String → List String → List String
  | K, [] => K
  | K, n :: L => keysAfter (if K.any (fun k => k = n) then K else K ++ [n]) L

/-- In-place overwriting keeps the path list unchanged. -/
theorem map_fst_replaceF (l : List (String × FileContent)) (n c) :
    (replaceF l n c).map Prod.fst = l.map Prod.fst := by
  induction l with
  | nil => rfl
  | cons p rest ih =>
    simp only [replaceF, List.map_cons, ih]
    by_cases hp : p.1 = n
    · rw [if_pos hp]
      simp [hp]
    · rw [if_neg hp]

/-- `setFile` appends the path exactly when it was absent. -/
theorem map_fst_setFile (fs : FS) (n c) :
    (fs.setFile n c).files.map Prod.fst
      = if (fs.files.map Prod.fst).any (fun k => k = n) then fs.files.map Prod.fst
        else fs.files.map Prod.fst ++ [n] := by
  have hc : ∀ l : List (String × FileContent),
      ((l.map Prod.fst).any fun k => k = n) = (l.any fun p => p.1 = n) := by
    intro l
    induction l with
    | nil => rfl
    | cons p rest ih => simp [List.any_cons, ih]
  rw [hc fs.files]
  unfold FS.setFile
  by_cases h : (fs.files.any fun p => p.1 = n) = true
  · rw [if_pos h, if_pos h]
    exact map_fst_replaceF fs.files n c
  · rw [if_neg h, if_neg h]
    simp

/-- The paths present after a write sequence are computed by `keysAfter`. -/
theorem map_fst_writeSeq (L : List (String × FileContent)) (fs : FS) :
    (writeSeq fs L).files.map Prod.fst
      = keysAfter (fs.files.map Prod.fst) (L.map Prod.fst) := by
  induction L generalizing fs with
  | nil => rfl
  | cons p L ih =>
    simp only [writeSeq, List.foldl_cons] at *
    rw [ih, map_fst_setFile]
    rfl

/-- The created directory exists afterwards. -/
theorem mkdirP_self_mem (fs : FS) (d : String) : d ∈ (mkdirP fs d).dirs := by
  unfold mkdirP
  by_cases h : d ∈ fs.dirs
  · rwa [if_pos h]
  · rw [if_neg h]
    exact List.mem_cons_self _ _

/-- Creating an already-existing directory is a no-op. -/
theorem mkdirP_of_mem (fs : FS) (d : String) (h : d ∈ fs.dirs) : mkdirP fs d = fs := by
  unfold mkdirP
  rw [if_pos h]

/-- The eleven write target paths of one run, in order. -/
def write_paths : List String :=
  [path_join icon_dir (icon_filename 16), path_join icon_dir (icon_filename 32),
   path_join icon_dir (icon_filename 32), path_join icon_dir (icon_filename 64),
   path_join icon_dir (icon_filename 128), path_join icon_dir (icon_filename 256),
   path_join icon_dir (icon_filename 256), path_join icon_dir (icon_filename 512),
   path_join icon_dir (icon_filename 512), path_join icon_dir (icon_filename 1024),
   path_join icon_dir "Contents.json"]

/-! ## The claims -/

/-- C1: for every requested canvas size `S > 0`, `create_anie_icon` returns
an in-memory image whose width and height both equal exactly `S`. -/
theorem claim_c1_icon_dimensions (env : FontEnv) (S : Nat) (h : 0 < S) :
    (create_anie_icon env S).width = S ∧ (create_anie_icon env S).height = S :=
  ⟨rfl, rfl⟩

/-- Witness for C1 at the concrete size 512. -/
theorem claim_c1_witness :
    0 < 512
    ∧ ((create_anie_icon env0 512).width = 512
        ∧ (create_anie_icon env0 512).height = 512) :=
  ⟨by decide, claim_c1_icon_dimensions env0 512 (by decide)⟩

/-- C2 (counterexample): at `S = 16` the inset is not exactly proportional
to `S` relative to the 1024-reference value 60: exact proportionality would
require `inset 16 * 1024 = 60 * 16`, but `inset 16 = 0`. -/
theorem claim_c2_counterexample : inset 16 * 1024 ≠ 60 * 16 := by
  have h : inset 16 = 0 := by
    have := pyInt_scale 60 16
    simpa [inset] using this
  rw [h]
  decide

/-- C2 (amended): the four scaled spatial constants are the integer
truncations of the proportional values (hence within one 1024-denominator
unit below exact proportionality, and exactly proportional only when the
division is exact); in particular at `S = 512` they equal exactly 30, 50,
200 and 5. -/
theorem claim_c2_scaled_constants :
    (inset 512 = 30 ∧ corner_radius 512 = 50 ∧ font_size 512 = 200 ∧ spacing 512 = 5)
    ∧ (∀ S : Nat,
        (inset S * 1024 ≤ 60 * S ∧ (60 * S : Int) - 1024 < inset S * 1024)
        ∧ (corner_radius S * 1024 ≤ 100 * S
            ∧ (100 * S : Int) - 1024 < corner_radius S * 1024)
        ∧ (font_size S * 1024 ≤ 400 * S
            ∧ (400 * S : Int) - 1024 < font_size S * 1024)
        ∧ (spacing S * 1024 ≤ 10 * S
            ∧ (10 * S : Int) - 1024 < spacing S * 1024)) := by
  constructor
  · refine ⟨?_, ?_, ?_, ?_⟩
    · have := pyInt_scale 60 512
      simpa [inset] using this
    · have := pyInt_scale 100 512
      simpa [corner_radius] using this
    · have := pyInt_scale 400 512
      simpa [font_size] using this
    · have := pyInt_scale 10 512
      simpa [spacing] using this
  · intro S
    refine ⟨?_, ?_, ?_, ?_⟩
    · have := pyInt_scale_bounds 60 S
      simpa [inset] using this
    · have := pyInt_scale_bounds 100 S
      simpa [corner_radius] using this
    · have := pyInt_scale_bounds 400 S
      simpa [font_size] using this
    · have := pyInt_scale_bounds 10 S
      simpa [spacing] using this

/-- C3 (counterexample): running the builder on an empty filesystem leaves
only 7 image files on disk, not 10, because the ten saves target only 7
distinct filenames. -/
theorem claim_c3_counterexample :
    (create_icon_set env0 FS.empty).toOption.map
      (fun fs => (fs.files.filter (fun p => p.2.isPng)).length) = some 7
    ∧ (7 : Nat) ≠ 10 :=
  ⟨rfl, by decide⟩

/-- C3 (amended): running the builder over the fixed five-size-class table
performs exactly 10 image save operations and produces exactly 10 manifest
records in the fixed table order (each size class in table order, its 1x
density before its 2x density), but the saves target only 7 distinct
filenames, so only 7 image files exist on disk afterwards. -/
theorem claim_c3_builder_output (env : FontEnv) (fs : FS) :
    (icon_sizes.foldl (process_entry env) (fs, [])).2 = manifest_images_list
    ∧ manifest_images_list.length = 10
    ∧ (icon_writes env).length = 10
    ∧ ((icon_writes env).map Prod.fst).eraseDups.length = 7
    ∧ ∃ fs', create_icon_set env FS.empty = .ok fs'
        ∧ fs'.files.map Prod.fst
          = [path_join icon_dir (icon_filename 16), path_join icon_dir (icon_filename 32),
             path_join icon_dir (icon_filename 64), path_join icon_dir (icon_filename 128),
             path_join icon_dir (icon_filename 256), path_join icon_dir (icon_filename 512),
             path_join icon_dir (icon_filename 1024),
             path_join icon_dir "Contents.json"] := by
  refine ⟨?_, by decide, rfl, rfl, ?_⟩
  · rw [fold_normal_form]
  · refine ⟨_, create_icon_set_normal_form env FS.empty, ?_⟩
    rw [map_fst_writeSeq, show (all_writes env).map Prod.fst = write_paths from rfl]
    rfl

/-- C4: for every canvas size `S`, the background rounded rectangle drawn
by `create_anie_icon` has bounding box `[inset, inset, S-inset, S-inset]`
(and the scaled corner radius), whatever the font environment. -/
theorem claim_c4_rect_coords (env : FontEnv) (S : Nat) :
    ∃ rest, (create_anie_icon env S).ops =
      DrawOp.roundedRect [inset S, inset S, (S : Int) - inset S, (S : Int) - inset S]
        color_black (corner_radius S) :: rest :=
  ⟨_, rfl⟩

/-- C5: every manifest record's scale string is the output dimension
integer-divided by the size class's base dimension suffixed with `x`; on the
fixed table this division is exact, and for size class `32x32` dimension 32
yields `1x` while dimension 64 yields `2x`. -/
theorem claim_c5_scale_strings (env : FontEnv) (fs : FS) :
    ((icon_sizes.foldl (process_entry env) (fs, [])).2.map (fun r => r.scale))
      = ["1x", "2x", "1x", "2x", "1x", "2x", "1x", "2x", "1x", "2x"]
    ∧ (∀ p ∈ icon_sizes, ∀ d ∈ p.2,
        (variant_record p.1 d).scale = toString (d / base_width p.1) ++ "x"
        ∧ d / base_width p.1 * base_width p.1 = d)
    ∧ (variant_record "32x32" 32).scale = "1x"
    ∧ (variant_record "32x32" 64).scale = "2x" := by
  refine ⟨rfl, ?_, rfl, rfl⟩
  decide

/-- Witness for C5 at the concrete table entry `"32x32"`, density 64. -/
theorem claim_c5_witness :
    ("32x32", [32, 64]) ∈ icon_sizes ∧ (64 : Nat) ∈ [32, 64]
    ∧ ((variant_record "32x32" 64).scale = toString (64 / base_width "32x32") ++ "x"
        ∧ 64 / base_width "32x32" * base_width "32x32" = 64) :=
  ⟨by decide, by decide,
   (claim_c5_scale_strings env0 FS.empty).2.1 ("32x32", [32, 64]) (by decide) 64 (by decide)⟩

/-- C6: font resolution is the ordered fallback chain primary path, then
secondary path, then library default, evaluated until first success: the
source's nested `try`/`except` equals the spec's first-success scan over the
ordered candidate list, both in the font obtained and in which loaders are
attempted. -/
theorem claim_c6_font_fallback (env : FontEnv) (fsz : Int) :
    load_font_run env fsz
      = first_success
          [(primary_font_path, env.truetype primary_font_path fsz),
           (secondary_font_path, env.truetype secondary_font_path fsz)]
          env.defaultFont := by
  unfold load_font_run first_success
  cases h1 : env.truetype primary_font_path fsz with
  | some f => rfl
  | none =>
    cases h2 : env.truetype secondary_font_path fsz with
    | some f => rfl
    | none => rfl

/-- C7: running the Icon Set Builder again on the state left by a first run
does not fail (directory creation is idempotent), and with unchanged inputs
the second run leaves every file with exactly the content the first run
gave it and the same directories (deterministic byte-identical re-render
given a fixed font environment). -/
theorem claim_c7_rerun_idempotent (env : FontEnv) (fs : FS) :
    ∃ fs1 fs2,
      create_icon_set env fs = .ok fs1
      ∧ create_icon_set env fs1 = .ok fs2
      ∧ (∀ n, fs2.getFile n = fs1.getFile n)
      ∧ fs2.dirs = fs1.dirs := by
  have hdir : icon_dir ∈ (writeSeq (mkdirP fs icon_dir) (all_writes env)).dirs := by
    rw [dirs_writeSeq]
    exact mkdirP_self_mem fs icon_dir
  have hm := mkdirP_of_mem _ _ hdir
  refine ⟨writeSeq (mkdirP fs icon_dir) (all_writes env), _,
          create_icon_set_normal_form env fs,
          create_icon_set_normal_form env _, ?_, ?_⟩
  · intro n
    rw [hm]
    exact getFile_writeSeq_idem (all_writes env) (mkdirP fs icon_dir) n
  · rw [hm, dirs_writeSeq]

/-- C8: the Glyph Layout Engine performs no disk write for any input size:
its effect trace (the font-path reads of font resolution) contains no write
effect, in any font environment. -/
theorem claim_c8_no_disk_writes (env : FontEnv) (size : Nat) :
    ((create_anie_icon_run env size).1.filter Effect.isWrite) = [] := by
  show (((load_font_run env (font_size size)).1.map Effect.readPath).filter
    Effect.isWrite) = []
  exact filter_isWrite_map_read _

/-- C9: filenames depend only on the pixel dimension, so the ten variants
map onto seven distinct filenames; `icon_32x32.png`, `icon_256x256.png` and
`icon_512x512.png` are each written twice with an identical image (the
later save overwrites the earlier), and two distinct manifest records
reference each of those shared filenames. -/
theorem claim_c9_filename_collisions (env : FontEnv) (fs : FS) :
    ((icon_sizes.foldl (process_entry env) (fs, [])).2.map (fun r => r.filename))
      = [icon_filename 16, icon_filename 32, icon_filename 32, icon_filename 64,
         icon_filename 128, icon_filename 256, icon_filename 256, icon_filename 512,
         icon_filename 512, icon_filename 1024]
    ∧ (((icon_sizes.foldl (process_entry env) (fs, [])).2.map
          (fun r => r.filename)).eraseDups)
        = [icon_filename 16, icon_filename 32, icon_filename 64, icon_filename 128,
           icon_filename 256, icon_filename 512, icon_filename 1024]
    ∧ (((icon_writes env).filter
          (fun p => p.1 = path_join icon_dir (icon_filename 32))).map Prod.snd
        = [.png (create_anie_icon env 32), .png (create_anie_icon env 32)]
      ∧ ((icon_writes env).filter
          (fun p => p.1 = path_join icon_dir (icon_filename 256))).map Prod.snd
        = [.png (create_anie_icon env 256), .png (create_anie_icon env 256)]
      ∧ ((icon_writes env).filter
          (fun p => p.1 = path_join icon_dir (icon_filename 512))).map Prod.snd
        = [.png (create_anie_icon env 512), .png (create_anie_icon env 512)])
    ∧ ((icon_sizes.foldl (process_entry env) (fs, [])).2.filter
          (fun r => r.filename = icon_filename 32))
        = [variant_record "16x16" 32, variant_record "32x32" 32]
    ∧ variant_record "16x16" 32 ≠ variant_record "32x32" 32 := by
  refine ⟨rfl, rfl, ⟨?_, ?_, ?_⟩, rfl, by decide⟩ <;> rfl

/-- C10: each scaled spatial constant is the integer truncation (floor) of
`c * S / 1024` for its reference constant `c`; in particular at `S = 16`
both the inset and the spacing collapse to 0. -/
theorem claim_c10_truncated_scaling (S : Nat) :
    inset S = ((60 * S / 1024 : Nat) : Int)
    ∧ corner_radius S = ((100 * S / 1024 : Nat) : Int)
    ∧ font_size S = ((400 * S / 1024 : Nat) : Int)
    ∧ spacing S = ((10 * S / 1024 : Nat) : Int)
    ∧ inset 16 = 0 ∧ spacing 16 = 0 := by
  refine ⟨?_, ?_, ?_, ?_, ?_, ?_⟩
  · have := pyInt_scale 60 S
    simpa [inset] using this
  · have := pyInt_scale 100 S
    simpa [corner_radius] using this
  · have := pyInt_scale 400 S
    simpa [font_size] using this
  · have := pyInt_scale 10 S
    simpa [spacing] using this
  · have := pyInt_scale 60 16
    simpa [inset] using this
  · have := pyInt_scale 10 16
    simpa [spacing] using this
